import Mathlib

/-!
Shallow embedding of the wasm scene manager
(src/Web/WebAssembly/vtkWasmSceneManager.cxx) and of the GLTF texture
conversion (src/unnamed/part_000, vtkGLTFTexture::GetVTKTexture),
with theorems settling the frozen claims about the spec.
-/

/-- The dynamic class of a registered native object, as far as the scene
manager can observe it through SafeDownCast and GetInteractor.  A render
window carries whether GetInteractor() returns a non-null interactor. -/
inductive NativeClass where
  | renderWindow (hasInteractor : Bool)
  | renderer
  | genericObject
deriving DecidableEq

/-- CallbackBridge from vtkWasmSceneManager.cxx lines 101-105: captures the
external callback handle f and the sender identifier.  The external callback
is not inspectable across the boundary; it is modelled by a numeric handle. -/
structure CallbackBridge where
  f : Nat
  SenderId : Nat
deriving DecidableEq

/-- One native observer slot on a vtkObject: the subscription token (tag),
the numeric event id it is keyed under, and the command client data. -/
structure Subscription where
  tag : Nat
  eventId : Nat
  bridge : CallbackBridge
deriving DecidableEq

/-- A registered native object: its observable class together with its
native observer list and the next observer tag the native mechanism will
hand out. -/
structure SceneObject where
  cls : NativeClass
  observers : List Subscription
  nextTag : Nat
deriving DecidableEq

/-- The identifier-to-object table of the object manager. -/
structure SceneManager where
  objects : List (Nat × SceneObject)
deriving DecidableEq

/-- Modelled from the spec: vtkObjectManager::GetObjectAtId (ObjectRegistry
resolve, section 4.1) is not part of the excerpted source; per the spec it
returns the live object on a hit and a miss otherwise. -/
def GetObjectAtId (m : SceneManager) (identifier : Nat) : Option SceneObject :=
  (m.objects.find? (fun p => p.fst == identifier)).map Prod.snd

/-- Replace the object stored under an identifier (the table entry is
updated in place when a native observer list changes). -/
def setObjectAtId (m : SceneManager) (identifier : Nat) (o : SceneObject) :
    SceneManager :=
  ⟨m.objects.map (fun p => if p.fst == identifier then (p.fst, o) else p)⟩

/-- A call delegated to a native collaborator object. -/
inductive NativeCall where
  | updateSize (width height : Int)
  | render
  | resetCamera
  | interactorStart
  | terminateApp
deriving DecidableEq

/-- Result of a boundary operation: either an ordinary return value, or a
dereference of a null native pointer (undefined behavior in the C++). -/
inductive Outcome (α : Type) where
  | ok (val : α)
  | nullDeref
deriving DecidableEq

/-- The process-global interactor flag touched by StartEventLoop. -/
structure GlobalState where
  InteractorManagesTheEventLoop : Bool
deriving DecidableEq

/-- vtkWasmSceneManager::SetSize (lines 30-42): resolve, downcast to
vtkRenderWindow, and only when GetInteractor() is non-null call
UpdateSize(width, height) and return true; otherwise return false. -/
def SetSize (m : SceneManager) (identifier : Nat) (width height : Int) :
    Bool × List NativeCall :=
  match GetObjectAtId m identifier with
  | some obj =>
    match obj.cls with
    | NativeClass.renderWindow hasInteractor =>
      if hasInteractor then (true, [NativeCall.updateSize width height])
      else (false, [])
    | _ => (false, [])
  | none => (false, [])

/-- vtkWasmSceneManager::Render (lines 45-54): resolve, downcast to
vtkRenderWindow, call Render() and return true; otherwise false. -/
def Render (m : SceneManager) (identifier : Nat) : Bool × List NativeCall :=
  match GetObjectAtId m identifier with
  | some obj =>
    match obj.cls with
    | NativeClass.renderWindow _ => (true, [NativeCall.render])
    | _ => (false, [])
  | none => (false, [])

/-- vtkWasmSceneManager::ResetCamera (lines 57-66): resolve, downcast to
vtkRenderer, call ResetCamera() and return true; otherwise false. -/
def ResetCamera (m : SceneManager) (identifier : Nat) : Bool × List NativeCall :=
  match GetObjectAtId m identifier with
  | some obj =>
    match obj.cls with
    | NativeClass.renderer => (true, [NativeCall.resetCamera])
    | _ => (false, [])
  | none => (false, [])

/-- vtkWasmSceneManager::StartEventLoop (lines 69-82): first sets the
process-global flag InteractorManagesTheEventLoop to false, then resolves
the identifier; on a render window it fetches GetInteractor() and, with no
null check, dereferences it (GetObjectDescription in the log line, then
Start()), so a render window whose interactor is null is a null
dereference; any other resolution returns false. -/
def StartEventLoop (g : GlobalState) (m : SceneManager) (identifier : Nat) :
    GlobalState × Outcome (Bool × List NativeCall) :=
  let g2 : GlobalState := { InteractorManagesTheEventLoop := false }
  match GetObjectAtId m identifier with
  | some obj =>
    match obj.cls with
    | NativeClass.renderWindow hasInteractor =>
      if hasInteractor then (g2, Outcome.ok (true, [NativeCall.interactorStart]))
      else (g2, Outcome.nullDeref)
    | _ => (g2, Outcome.ok (false, []))
  | none => (g2, Outcome.ok (false, []))

/-- vtkWasmSceneManager::StopEventLoop (lines 85-97): resolves the
identifier; on a render window it fetches GetInteractor() and, with no null
check, dereferences it (GetObjectDescription, then TerminateApp()), so a
render window whose interactor is null is a null dereference; any other
resolution returns false. -/
def StopEventLoop (m : SceneManager) (identifier : Nat) :
    Outcome (Bool × List NativeCall) :=
  match GetObjectAtId m identifier with
  | some obj =>
    match obj.cls with
    | NativeClass.renderWindow hasInteractor =>
      if hasInteractor then Outcome.ok (true, [NativeCall.terminateApp])
      else Outcome.nullDeref
    | _ => Outcome.ok (false, [])
  | none => Outcome.ok (false, [])

/-- Modelled from the spec: the canonical event-name table of vtkCommand is
not part of the excerpted source; per the spec event names are canonical
strings in bijection with numeric native event ids (a representative
fragment of the table suffices; id 0 is the unknown event). -/
def eventTable : List (Nat × String) :=
  [(1, "AnyEvent"), (2, "DeleteEvent"), (3, "StartEvent"), (4, "EndEvent"),
   (5, "RenderEvent"), (6, "ProgressEvent"), (7, "PickEvent"),
   (8, "StartPickEvent"), (9, "EndPickEvent"), (10, "AbortCheckEvent"),
   (11, "ExitEvent"), (12, "LeftButtonPressEvent"),
   (13, "LeftButtonReleaseEvent"), (26, "TimerEvent"), (31, "ModifiedEvent")]

/-- Modelled from the spec: vtkCommand::GetStringFromEventId — the canonical
string name of a native event id, the unknown-event name otherwise. -/
def GetStringFromEventId (eid : Nat) : String :=
  match eventTable.find? (fun p => p.fst == eid) with
  | some p => p.snd
  | none => "NoEvent"

/-- Modelled from the spec: vtkCommand event-name lookup used by
vtkObject::AddObserver(const char*, ...) — the id of a canonical event
name, 0 (no event) for an unknown name. -/
def GetEventIdFromString (name : String) : Nat :=
  match eventTable.find? (fun p => p.snd == name) with
  | some p => p.fst
  | none => 0

/-- Modelled from the spec: vtkObject::AddObserver, the native
subscribe-by-name mechanism of section 6 — it stores a new observer slot
and returns a fresh stable token (the next tag of the object, which starts at 1
on a fresh vtkObject, so it is never 0). -/
def vtkObjectAddObserver (o : SceneObject) (eid : Nat) (b : CallbackBridge) :
    Nat × SceneObject :=
  (o.nextTag,
   { o with observers := o.observers ++ [⟨o.nextTag, eid, b⟩],
            nextTag := o.nextTag + 1 })

/-- Modelled from the spec: vtkObject::RemoveObserver(tag), the native
unsubscribe — it drops the observer slot carrying the tag (a no-op when no
slot carries it) and returns nothing. -/
def vtkObjectRemoveObserver (o : SceneObject) (tag : Nat) : SceneObject :=
  { o with observers := o.observers.filter (fun s => s.tag != tag) }

/-- One invocation of the external callback across the boundary:
the callback handle together with the (senderId, eventName) arguments. -/
structure ExternalCall where
  callback : Nat
  senderId : Nat
  eventName : String
deriving DecidableEq

/-- Modelled from the spec: event delivery (section 4.2) — firing a native
event invokes, synchronously and in slot order, every observer slot keyed
under that event id; each slot runs the CallbackBridge lambda of
vtkWasmSceneManager.cxx lines 123-126, which calls
f(SenderId, GetStringFromEventId(eid)). -/
def vtkObjectInvokeEvent (o : SceneObject) (eid : Nat) : List ExternalCall :=
  (o.observers.filter (fun s => s.eventId == eid)).map
    (fun s => ⟨s.bridge.f, s.bridge.SenderId, GetStringFromEventId eid⟩)

/-- vtkWasmSceneManager::AddObserver (lines 109-128): resolve the
identifier; on a miss return token 0 with nothing registered; otherwise
build a CallbackBridge capturing (callback, identifier), wrap it in a
callback command, and register it on the native object under the event
name, returning the native token. -/
def AddObserver (m : SceneManager) (identifier : Nat) (eventName : String)
    (callback : Nat) : Nat × SceneManager :=
  match GetObjectAtId m identifier with
  | none => (0, m)
  | some obj =>
    let r := vtkObjectAddObserver obj (GetEventIdFromString eventName)
      ⟨callback, identifier⟩
    (r.fst, setObjectAtId m identifier r.snd)

/-- vtkWasmSceneManager::RemoveObserver (lines 131-141): resolve the
identifier; on a miss return false; otherwise call the native
RemoveObserver(tag) — whose result is not consulted — and return true. -/
def RemoveObserver (m : SceneManager) (identifier : Nat) (tag : Nat) :
    Bool × SceneManager :=
  match GetObjectAtId m identifier with
  | none => (false, m)
  | some obj => (true, setObjectAtId m identifier (vtkObjectRemoveObserver obj tag))

/-- Sampler minification/magnification filters of the GLTF loader. -/
inductive FilterType where
  | NEAREST
  | LINEAR
  | NEAREST_MIPMAP_NEAREST
  | LINEAR_MIPMAP_NEAREST
  | NEAREST_MIPMAP_LINEAR
  | LINEAR_MIPMAP_LINEAR
deriving DecidableEq

/-- Sampler wrap modes of the GLTF loader. -/
inductive WrapType where
  | CLAMP_TO_EDGE
  | REPEAT
  | MIRRORED_REPEAT
deriving DecidableEq

/-- The sampler configuration consumed by vtkGLTFTexture::GetVTKTexture. -/
structure Sampler where
  MinFilter : FilterType
  MagFilter : FilterType
  WrapS : WrapType
  WrapT : WrapType
deriving DecidableEq

/-- The vtkTexture settings GetVTKTexture touches. -/
structure Texture where
  ColorModeDirectScalars : Bool
  BlendingModeModulate : Bool
  Mipmap : Bool
  RepeatOn : Bool
  EdgeClampOn : Bool
  InterpolateOn : Bool
  HasInputData : Bool
deriving DecidableEq

/-- Modelled from the spec: the freshly constructed vtkTexture used by
vtkNew in GetVTKTexture; its constructor is not part of the excerpted
source, and its wrap state (repeat on, edge clamp off) is the best-effort
default the warning branch leaves in place. -/
def vtkTextureDefault : Texture :=
  { ColorModeDirectScalars := false
    BlendingModeModulate := false
    Mipmap := false
    RepeatOn := true
    EdgeClampOn := false
    InterpolateOn := false
    HasInputData := false }

/-- vtkGLTFTexture::GetVTKTexture (src/unnamed/part_000 lines 16-62):
builds a vtkTexture from the sampler, logging warnings instead of failing;
returns the texture settings together with the warnings emitted. -/
def GetVTKTexture (s : Sampler) : Texture × List String :=
  let t0 := { vtkTextureDefault with
              ColorModeDirectScalars := true, BlendingModeModulate := true }
  let t1 :=
    if s.MinFilter = FilterType.NEAREST ∨ s.MinFilter = FilterType.LINEAR then
      { t0 with Mipmap := false }
    else
      { t0 with Mipmap := true }
  let step2 : Texture × List String :=
    if s.WrapS = WrapType.CLAMP_TO_EDGE ∨ s.WrapT = WrapType.CLAMP_TO_EDGE then
      ({ t1 with RepeatOn := false, EdgeClampOn := true }, [])
    else if s.WrapS = WrapType.REPEAT ∨ s.WrapT = WrapType.REPEAT then
      ({ t1 with RepeatOn := true, EdgeClampOn := false }, [])
    else
      (t1, ["Mirrored texture wrapping is not supported!"])
  let t3 :=
    if s.MinFilter = FilterType.LINEAR ∨
       s.MinFilter = FilterType.LINEAR_MIPMAP_NEAREST ∨
       s.MinFilter = FilterType.NEAREST_MIPMAP_LINEAR ∨
       s.MinFilter = FilterType.LINEAR_MIPMAP_LINEAR ∨
       s.MagFilter = FilterType.LINEAR ∨
       s.MagFilter = FilterType.LINEAR_MIPMAP_NEAREST ∨
       s.MagFilter = FilterType.NEAREST_MIPMAP_LINEAR ∨
       s.MagFilter = FilterType.LINEAR_MIPMAP_LINEAR then
      { step2.fst with InterpolateOn := true }
    else
      step2.fst
  ({ t3 with HasInputData := true }, step2.snd)

/-- A sample registry used to instantiate the theorems on concrete inputs:
id 1 a render window with an interactor, id 2 a render window whose
GetInteractor() is null, id 3 a renderer, id 4 a plain observable object. -/
def sampleManager : SceneManager :=
  ⟨[(1, ⟨NativeClass.renderWindow true, [], 1⟩),
    (2, ⟨NativeClass.renderWindow false, [], 1⟩),
    (3, ⟨NativeClass.renderer, [], 1⟩),
    (4, ⟨NativeClass.genericObject, [], 1⟩)]⟩

theorem find?_map_set (l : List (Nat × SceneObject)) (id : Nat) (o : SceneObject)
    (h : (l.find? (fun p => p.fst == id)).isSome) :
    (l.map (fun p => if p.fst == id then (p.fst, o) else p)).find?
      (fun p => p.fst == id) = some (id, o) := by
  induction l with
  | nil => simp at h
  | cons a l ih =>
    by_cases ha : (a.fst == id) = true
    · have hid : a.fst = id := by simpa using ha
      simp [List.find?, ha, hid]
    · have ha' : (a.fst == id) = false := by
        cases hb : (a.fst == id) with
        | true => exact absurd hb ha
        | false => rfl
      simp only [List.find?, ha'] at h
      simp only [List.map, ha', if_neg, List.find?, ite_false]
      rw [if_neg (by simp [ha'])]
      simp only [List.find?, ha']
      exact ih h

theorem GetObjectAtId_setObjectAtId (m : SceneManager) (id : Nat)
    (o₀ o : SceneObject) (h : GetObjectAtId m id = some o₀) :
    GetObjectAtId (setObjectAtId m id o) id = some o := by
  unfold GetObjectAtId setObjectAtId
  unfold GetObjectAtId at h
  have hsome : (m.objects.find? (fun p => p.fst == id)).isSome := by
    cases hf : m.objects.find? (fun p => p.fst == id) with
    | none => rw [hf] at h; simp at h
    | some p => simp
  rw [find?_map_set m.objects id o hsome]
  rfl

theorem setObjectAtId_twice (m : SceneManager) (id : Nat) (o : SceneObject) :
    setObjectAtId (setObjectAtId m id o) id o = setObjectAtId m id o := by
  unfold setObjectAtId
  congr 1
  rw [List.map_map]
  apply List.map_congr_left
  intro p _
  by_cases hp : (p.fst == id) = true
  · simp [Function.comp, hp]
  · simp [Function.comp, hp]

theorem vtkObjectRemoveObserver_twice (o : SceneObject) (t : Nat) :
    vtkObjectRemoveObserver (vtkObjectRemoveObserver o t) t =
      vtkObjectRemoveObserver o t := by
  unfold vtkObjectRemoveObserver
  simp [List.filter_filter]

theorem startEventLoop_flag (g : GlobalState) (m : SceneManager) (id : Nat) :
    (StartEventLoop g m id).fst = ⟨false⟩ := by
  unfold StartEventLoop
  cases GetObjectAtId m id with
  | none => rfl
  | some obj =>
    obtain ⟨cls, obs, tag⟩ := obj
    cases cls with
    | renderWindow hasI => cases hasI <;> rfl
    | renderer => rfl
    | genericObject => rfl

/-- C1: the claim that no boundary operation ever dereferences an invalid
reference fails on the code: when identifier 2 resolves to a render window
whose GetInteractor() returns null, StartEventLoop and StopEventLoop both
dereference the null interactor (GetObjectDescription / TerminateApp with
no null check) instead of returning a boolean. -/
theorem C1_start_stop_null_interactor_deref :
    (StartEventLoop ⟨true⟩ sampleManager 2).snd = Outcome.nullDeref
    ∧ StopEventLoop sampleManager 2 = Outcome.nullDeref := by
  constructor <;> rfl

/-- C3 counterexample: with the global flag initially true and any
identifier (here an unregistered one, 999), the flag after StartEventLoop
returns is false, not the value it had before the call. -/
theorem C3_flag_not_restored_counterexample :
    ¬ ((StartEventLoop ⟨true⟩ sampleManager 999).fst.InteractorManagesTheEventLoop
        = (⟨true⟩ : GlobalState).InteractorManagesTheEventLoop) := by
  decide

/-- C3 (amended): StartEventLoop clears the global flag
InteractorManagesTheEventLoop and never restores it: after the call the
flag is false whatever value it held before the call. -/
theorem C3_flag_cleared_permanently (g : GlobalState) (m : SceneManager)
    (id : Nat) :
    (StartEventLoop g m id).fst = ⟨false⟩ ∧
      (StartEventLoop g m id).fst = (StartEventLoop ⟨true⟩ m id).fst := by
  rw [startEventLoop_flag, startEventLoop_flag]
  exact ⟨rfl, rfl⟩

/-- C9: StartEventLoop sets the process-global flag to false
unconditionally, before resolving the identifier: the post-state flag is
false for every identifier, including an unknown one and one resolving to
an object that is not a render window, in which cases the call still
returns false while the flag stays cleared. -/
theorem C9_flag_cleared_unconditionally (g : GlobalState) (m : SceneManager)
    (id : Nat) :
    (StartEventLoop g m id).fst.InteractorManagesTheEventLoop = false
    ∧ (GetObjectAtId m id = none →
        StartEventLoop g m id = (⟨false⟩, Outcome.ok (false, [])))
    ∧ (∀ cls obs tag, GetObjectAtId m id = some ⟨cls, obs, tag⟩ →
        (∀ b, cls ≠ NativeClass.renderWindow b) →
        StartEventLoop g m id = (⟨false⟩, Outcome.ok (false, []))) := by
  refine ⟨by rw [startEventLoop_flag], ?_, ?_⟩
  · intro h
    unfold StartEventLoop
    rw [h]
  · intro cls obs tag h hb
    unfold StartEventLoop
    rw [h]
    cases cls with
    | renderWindow b => exact absurd rfl (hb b)
    | renderer => rfl
    | genericObject => rfl

/-- C9 witness: on the sample registry with unknown identifier 999 and the
flag initially true, StartEventLoop clears the flag and returns false. -/
theorem C9_flag_cleared_unconditionally_witness :
    (StartEventLoop ⟨true⟩ sampleManager 999).fst.InteractorManagesTheEventLoop
        = false
    ∧ StartEventLoop ⟨true⟩ sampleManager 999
        = (⟨false⟩, Outcome.ok (false, [])) := by
  have h := C9_flag_cleared_unconditionally ⟨true⟩ sampleManager 999
  exact ⟨h.1, h.2.1 rfl⟩

/-- C10: the result of RemoveObserver is exactly whether the identifier
resolves, independent of the token value (including a token never issued by
AddObserver or one already removed); on a miss the state is unchanged. -/
theorem C10_remove_result_ignores_token (m : SceneManager) (id tok : Nat) :
    (RemoveObserver m id tok).fst = (GetObjectAtId m id).isSome
    ∧ (GetObjectAtId m id = none → (RemoveObserver m id tok).snd = m) := by
  unfold RemoveObserver
  cases h : GetObjectAtId m id with
  | none => exact ⟨rfl, fun _ => rfl⟩
  | some obj => exact ⟨rfl, fun hc => Option.noConfusion hc⟩

/-- C10 witness: on the sample registry, identifier 1 resolves, so a token
never issued by AddObserver (12345) is still reported removed; on the
unknown identifier 999 the call reports false and changes nothing. -/
theorem C10_remove_result_ignores_token_witness :
    (RemoveObserver sampleManager 999 12345).fst
        = (GetObjectAtId sampleManager 999).isSome
    ∧ (RemoveObserver sampleManager 999 12345).snd = sampleManager := by
  have h := C10_remove_result_ignores_token sampleManager 999 12345
  exact ⟨h.1, h.2 rfl⟩

/-- C2 counterexample: on the sample registry, AddObserver on identifier 4
issues token 1; the first RemoveObserver with that token returns true, and
so does the second — not false as the claim states — because the result
only records that the identifier resolved. -/
theorem C2_second_remove_returns_true :
    (RemoveObserver
        (RemoveObserver (AddObserver sampleManager 4 "StartEvent" 7).snd 4
          (AddObserver sampleManager 4 "StartEvent" 7).fst).snd 4
        (AddObserver sampleManager 4 "StartEvent" 7).fst).fst = true
    ∧ (RemoveObserver (AddObserver sampleManager 4 "StartEvent" 7).snd 4
        (AddObserver sampleManager 4 "StartEvent" 7).fst).fst = true := by
  constructor <;> rfl

/-- C2 (amended): for every identifier that resolves and every token,
RemoveObserver returns true on the first call and again true (not false)
on the second call; the second removal is an idempotent no-op on the
state, but it is reported as success because the result depends only on
whether the identifier resolves. -/
theorem C2_remove_twice (m : SceneManager) (id tok : Nat) (o : SceneObject)
    (h : GetObjectAtId m id = some o) :
    (RemoveObserver m id tok).fst = true
    ∧ (RemoveObserver (RemoveObserver m id tok).snd id tok).fst = true
    ∧ (RemoveObserver (RemoveObserver m id tok).snd id tok).snd
        = (RemoveObserver m id tok).snd := by
  have h1 : RemoveObserver m id tok
      = (true, setObjectAtId m id (vtkObjectRemoveObserver o tok)) := by
    unfold RemoveObserver
    rw [h]
  have h2 : GetObjectAtId (setObjectAtId m id (vtkObjectRemoveObserver o tok)) id
      = some (vtkObjectRemoveObserver o tok) :=
    GetObjectAtId_setObjectAtId m id o _ h
  have h3 : RemoveObserver (setObjectAtId m id (vtkObjectRemoveObserver o tok)) id tok
      = (true, setObjectAtId m id (vtkObjectRemoveObserver o tok)) := by
    unfold RemoveObserver
    rw [h2]
    show (true, setObjectAtId (setObjectAtId m id (vtkObjectRemoveObserver o tok))
        id (vtkObjectRemoveObserver (vtkObjectRemoveObserver o tok) tok)) = _
    rw [vtkObjectRemoveObserver_twice, setObjectAtId_twice]
  rw [h1]
  exact ⟨rfl, by rw [h3], by rw [h3]⟩

/-- C2 witness: the amended statement at identifier 4 of the sample
registry with token 5. -/
theorem C2_remove_twice_witness :
    (RemoveObserver sampleManager 4 5).fst = true
    ∧ (RemoveObserver (RemoveObserver sampleManager 4 5).snd 4 5).fst = true
    ∧ (RemoveObserver (RemoveObserver sampleManager 4 5).snd 4 5).snd
        = (RemoveObserver sampleManager 4 5).snd :=
  C2_remove_twice sampleManager 4 5 ⟨NativeClass.genericObject, [], 1⟩ rfl

/-- C4: SetSize succeeds, with the single native call
UpdateSize(width, height), exactly when the identifier resolves to a
render window whose GetInteractor() is non-null; whenever it fails
(unknown identifier, wrong class, or a render window with no interactor)
it performs no native call. -/
theorem C4_setsize_requires_interactor (m : SceneManager) (id : Nat)
    (w h : Int) :
    ((SetSize m id w h).fst = true
        ↔ ∃ obs tag, GetObjectAtId m id
            = some ⟨NativeClass.renderWindow true, obs, tag⟩)
    ∧ ((SetSize m id w h).fst = true →
        (SetSize m id w h).snd = [NativeCall.updateSize w h])
    ∧ ((SetSize m id w h).fst = false → (SetSize m id w h).snd = []) := by
  unfold SetSize
  cases hf : GetObjectAtId m id with
  | none =>
    refine ⟨⟨fun hc => Bool.noConfusion hc, ?_⟩, fun hc => Bool.noConfusion hc,
      fun _ => rfl⟩
    rintro ⟨obs, tag, hc⟩
    exact Option.noConfusion hc
  | some obj =>
    obtain ⟨cls, obs, tag⟩ := obj
    cases cls with
    | renderWindow hasI =>
      cases hasI with
      | true =>
        exact ⟨⟨fun _ => ⟨obs, tag, rfl⟩, fun _ => rfl⟩, fun _ => rfl,
          fun hc => Bool.noConfusion hc⟩
      | false =>
        refine ⟨⟨fun hc => Bool.noConfusion hc, ?_⟩,
          fun hc => Bool.noConfusion hc, fun _ => rfl⟩
        rintro ⟨obs2, tag2, hc⟩
        cases hc
    | renderer =>
      refine ⟨⟨fun hc => Bool.noConfusion hc, ?_⟩,
        fun hc => Bool.noConfusion hc, fun _ => rfl⟩
      rintro ⟨obs2, tag2, hc⟩
      cases hc
    | genericObject =>
      refine ⟨⟨fun hc => Bool.noConfusion hc, ?_⟩,
        fun hc => Bool.noConfusion hc, fun _ => rfl⟩
      rintro ⟨obs2, tag2, hc⟩
      cases hc

/-- C4 witness: identifier 1 of the sample registry is a render window
with an interactor, so SetSize succeeds with a single UpdateSize(10, 20);
the characterization is instantiated there. -/
theorem C4_setsize_requires_interactor_witness :
    ((SetSize sampleManager 1 10 20).fst = true
        ↔ ∃ obs tag, GetObjectAtId sampleManager 1
            = some ⟨NativeClass.renderWindow true, obs, tag⟩)
    ∧ ((SetSize sampleManager 1 10 20).fst = true →
        (SetSize sampleManager 1 10 20).snd = [NativeCall.updateSize 10 20])
    ∧ ((SetSize sampleManager 1 10 20).fst = false →
        (SetSize sampleManager 1 10 20).snd = []) :=
  C4_setsize_requires_interactor sampleManager 1 10 20

/-- C5: after AddObserver(id, name, cb) on an identifier that resolves, a
native firing of the subscribed event on that object invokes the external
callback exactly once more than before — synchronously, in the delivery of
that firing — with arguments (id, name), where name is the canonical
string of the fired event id. -/
theorem C5_event_delivery (m : SceneManager) (id : Nat) (name : String)
    (cb : Nat) (o : SceneObject) (h : GetObjectAtId m id = some o)
    (hname : GetStringFromEventId (GetEventIdFromString name) = name) :
    ∃ o₂, GetObjectAtId (AddObserver m id name cb).snd id = some o₂
      ∧ vtkObjectInvokeEvent o₂ (GetEventIdFromString name)
          = vtkObjectInvokeEvent o (GetEventIdFromString name)
            ++ [⟨cb, id, name⟩] := by
  have hA : AddObserver m id name cb
      = ((vtkObjectAddObserver o (GetEventIdFromString name) ⟨cb, id⟩).fst,
         setObjectAtId m id
           (vtkObjectAddObserver o (GetEventIdFromString name) ⟨cb, id⟩).snd) := by
    unfold AddObserver
    rw [h]
  refine ⟨(vtkObjectAddObserver o (GetEventIdFromString name) ⟨cb, id⟩).snd,
    ?_, ?_⟩
  · rw [hA]
    exact GetObjectAtId_setObjectAtId m id o _ h
  · unfold vtkObjectAddObserver vtkObjectInvokeEvent
    dsimp only
    rw [List.filter_append, List.map_append]
    congr 1
    simp [hname]

/-- C5 witness: on the sample registry, observing "StartEvent" on
identifier 4 (whose observer list is empty) and firing that event delivers
exactly the one call (4, "StartEvent") to callback 7. -/
theorem C5_event_delivery_witness :
    ∃ o₂, GetObjectAtId (AddObserver sampleManager 4 "StartEvent" 7).snd 4
        = some o₂
      ∧ vtkObjectInvokeEvent o₂ (GetEventIdFromString "StartEvent")
          = vtkObjectInvokeEvent ⟨NativeClass.genericObject, [], 1⟩
              (GetEventIdFromString "StartEvent")
            ++ [⟨7, 4, "StartEvent"⟩] :=
  C5_event_delivery sampleManager 4 "StartEvent" 7
    ⟨NativeClass.genericObject, [], 1⟩ rfl rfl

/-- C6: Render and ResetCamera return false with no native call whenever
the identifier does not resolve to an object of the required class; and on
an identifier that resolves to nothing at all, every boundary operation
reports a miss (false result, zero token, unchanged state, no native
call). -/
theorem C6_miss_reports_false (m : SceneManager) (id : Nat) :
    ((∀ o, GetObjectAtId m id = some o →
        ∀ b, o.cls ≠ NativeClass.renderWindow b) →
      Render m id = (false, []))
    ∧ ((∀ o, GetObjectAtId m id = some o → o.cls ≠ NativeClass.renderer) →
      ResetCamera m id = (false, []))
    ∧ (GetObjectAtId m id = none →
        (∀ w h, SetSize m id w h = (false, []))
        ∧ Render m id = (false, [])
        ∧ ResetCamera m id = (false, [])
        ∧ (∀ g, (StartEventLoop g m id).snd = Outcome.ok (false, []))
        ∧ StopEventLoop m id = Outcome.ok (false, [])
        ∧ (∀ name cb, AddObserver m id name cb = (0, m))
        ∧ (∀ t, RemoveObserver m id t = (false, m))) := by
  refine ⟨?_, ?_, ?_⟩
  · intro hcap
    unfold Render
    cases hf : GetObjectAtId m id with
    | none => rfl
    | some obj =>
      obtain ⟨cls, obs, tag⟩ := obj
      cases cls with
      | renderWindow b => exact absurd rfl (hcap _ hf b)
      | renderer => rfl
      | genericObject => rfl
  · intro hcap
    unfold ResetCamera
    cases hf : GetObjectAtId m id with
    | none => rfl
    | some obj =>
      obtain ⟨cls, obs, tag⟩ := obj
      cases cls with
      | renderWindow b => rfl
      | renderer => exact absurd rfl (hcap _ hf)
      | genericObject => rfl
  · intro hnone
    refine ⟨fun w h => ?_, ?_, ?_, fun g => ?_, ?_, fun name cb => ?_,
      fun t => ?_⟩
    · unfold SetSize; rw [hnone]
    · unfold Render; rw [hnone]
    · unfold ResetCamera; rw [hnone]
    · unfold StartEventLoop; rw [hnone]
    · unfold StopEventLoop; rw [hnone]
    · unfold AddObserver; rw [hnone]
    · unfold RemoveObserver; rw [hnone]

/-- C6 witness: identifier 999 was never registered in the sample
registry, so Render, ResetCamera, AddObserver and RemoveObserver all
report a miss. -/
theorem C6_miss_reports_false_witness :
    Render sampleManager 999 = (false, [])
    ∧ ResetCamera sampleManager 999 = (false, [])
    ∧ AddObserver sampleManager 999 "StartEvent" 7 = (0, sampleManager)
    ∧ RemoveObserver sampleManager 999 3 = (false, sampleManager) := by
  have h := C6_miss_reports_false sampleManager 999
  have hres := h.2.2 rfl
  exact ⟨hres.2.1, hres.2.2.1, hres.2.2.2.2.2.1 "StartEvent" 7,
    hres.2.2.2.2.2.2 3⟩

/-- C7: AddObserver on an identifier that does not resolve returns the
zero token and leaves the registry untouched; on an identifier that
resolves (with the native tag counter at least 1, as on any fresh
vtkObject), it returns a nonzero token that RemoveObserver then accepts. -/
theorem C7_addobserver_zero_token (m : SceneManager) (id : Nat)
    (name : String) (cb : Nat) :
    (GetObjectAtId m id = none → AddObserver m id name cb = (0, m))
    ∧ (∀ o, GetObjectAtId m id = some o → 1 ≤ o.nextTag →
        (AddObserver m id name cb).fst ≠ 0
        ∧ (RemoveObserver (AddObserver m id name cb).snd id
            (AddObserver m id name cb).fst).fst = true) := by
  constructor
  · intro h
    unfold AddObserver
    rw [h]
  · intro o h hwf
    have hA : AddObserver m id name cb
        = (o.nextTag,
           setObjectAtId m id
             (vtkObjectAddObserver o (GetEventIdFromString name) ⟨cb, id⟩).snd) := by
      unfold AddObserver
      rw [h]
      rfl
    rw [hA]
    constructor
    · exact fun hz => by omega
    · unfold RemoveObserver
      rw [GetObjectAtId_setObjectAtId m id o _ h]

/-- C7 witness: on the sample registry, AddObserver on the unregistered
identifier 999 returns token 0 and changes nothing, while on identifier 4
it returns a nonzero token accepted by RemoveObserver. -/
theorem C7_addobserver_zero_token_witness :
    AddObserver sampleManager 999 "StartEvent" 7 = (0, sampleManager)
    ∧ (AddObserver sampleManager 4 "StartEvent" 7).fst ≠ 0
    ∧ (RemoveObserver (AddObserver sampleManager 4 "StartEvent" 7).snd 4
        (AddObserver sampleManager 4 "StartEvent" 7).fst).fst = true := by
  have h999 := (C7_addobserver_zero_token sampleManager 999 "StartEvent" 7).1 rfl
  have h4 := (C7_addobserver_zero_token sampleManager 4 "StartEvent" 7).2
    ⟨NativeClass.genericObject, [], 1⟩ rfl (by decide)
  exact ⟨h999, h4.1, h4.2⟩

/-- C8: when neither wrap setting of the sampler is CLAMP_TO_EDGE or
REPEAT, GetVTKTexture emits exactly the mirrored-wrapping warning, leaves
the wrap mode at the constructed default (repeat on, edge clamp off), and
still completes the texture (its input data is set) — the configuration
is never propagated as a failure. -/
theorem C8_unsupported_wrap_warns (s : Sampler)
    (hS1 : s.WrapS ≠ WrapType.CLAMP_TO_EDGE) (hS2 : s.WrapS ≠ WrapType.REPEAT)
    (hT1 : s.WrapT ≠ WrapType.CLAMP_TO_EDGE)
    (hT2 : s.WrapT ≠ WrapType.REPEAT) :
    (GetVTKTexture s).snd = ["Mirrored texture wrapping is not supported!"]
    ∧ (GetVTKTexture s).fst.RepeatOn = vtkTextureDefault.RepeatOn
    ∧ (GetVTKTexture s).fst.EdgeClampOn = vtkTextureDefault.EdgeClampOn
    ∧ (GetVTKTexture s).fst.HasInputData = true := by
  obtain ⟨minF, magF, wS, wT⟩ := s
  cases wS
  case CLAMP_TO_EDGE => exact absurd rfl hS1
  case REPEAT => exact absurd rfl hS2
  case MIRRORED_REPEAT =>
    cases wT
    case CLAMP_TO_EDGE => exact absurd rfl hT1
    case REPEAT => exact absurd rfl hT2
    case MIRRORED_REPEAT => cases minF <;> cases magF <;> decide

/-- C8 witness: a fully mirrored sampler with linear filters warns and
still yields a texture with the default wrap state and its input set. -/
theorem C8_unsupported_wrap_warns_witness :
    (GetVTKTexture ⟨FilterType.LINEAR, FilterType.LINEAR,
        WrapType.MIRRORED_REPEAT, WrapType.MIRRORED_REPEAT⟩).snd
      = ["Mirrored texture wrapping is not supported!"]
    ∧ (GetVTKTexture ⟨FilterType.LINEAR, FilterType.LINEAR,
        WrapType.MIRRORED_REPEAT, WrapType.MIRRORED_REPEAT⟩).fst.RepeatOn
      = vtkTextureDefault.RepeatOn
    ∧ (GetVTKTexture ⟨FilterType.LINEAR, FilterType.LINEAR,
        WrapType.MIRRORED_REPEAT, WrapType.MIRRORED_REPEAT⟩).fst.EdgeClampOn
      = vtkTextureDefault.EdgeClampOn
    ∧ (GetVTKTexture ⟨FilterType.LINEAR, FilterType.LINEAR,
        WrapType.MIRRORED_REPEAT, WrapType.MIRRORED_REPEAT⟩).fst.HasInputData
      = true :=
  C8_unsupported_wrap_warns
    ⟨FilterType.LINEAR, FilterType.LINEAR,
      WrapType.MIRRORED_REPEAT, WrapType.MIRRORED_REPEAT⟩
    (by decide) (by decide) (by decide) (by decide)
